import Mathlib

/-!
Verification development for the bodet-scoreboard repository
(`src/main.rs`, `src/web_server.rs`).

Bytes are modelled as `Nat`.  Every value handled by the source is a Rust
`u8` (so `< 256`); none of the operations below (XOR, `&&& 0x7F`, the
conditional `+ 32`) can overflow 8 bits on such inputs, so no `% 256`
truncation is needed: `wrapping_add` in the source is applied to a value
`< 32`, producing at most `63`.
-/

/-- Protocol control character SOH (src/main.rs line 8). -/
def SOH : Nat := 0x01

/-- Protocol control character STX (src/main.rs line 9). -/
def STX : Nat := 0x02

/-- Protocol control character ETX (src/main.rs line 10). -/
def ETX : Nat := 0x03

/-- Struct `ProtocolFrame` of src/main.rs: a parsed protocol frame. -/
structure ProtocolFrame where
  soh : Nat
  address : Nat
  stx : Nat
  ctrl : Nat
  message : List Nat
  etx : Nat
  lrc : Nat
deriving DecidableEq, Repr

/-- Function `ProtocolFrame::compute_lrc_bytes` of src/main.rs: XOR all
bytes, mask with `0x7F`, then if the result is below 32 add 32 (the
source uses `wrapping_add`, but the argument is `< 32` so no wrap can
occur and plain addition is exact). -/
def ProtocolFrame.compute_lrc_bytes (bytes : List Nat) : Nat :=
  let x := bytes.foldl (fun acc b => acc ^^^ b) 0
  let lrc := x &&& 0x7F
  if lrc < 32 then lrc + 32 else lrc

/-- Function `ProtocolFrame::lrc_input_bytes` of src/main.rs: the bytes
fed to the LRC computation — address, STX, CTRL, message bytes, ETX
(SOH excluded, ETX included). -/
def ProtocolFrame.lrc_input_bytes (f : ProtocolFrame) : List Nat :=
  [f.address, f.stx, f.ctrl] ++ f.message ++ [f.etx]

/-- Function `ProtocolFrame::expected_lrc` of src/main.rs. -/
def ProtocolFrame.expected_lrc (f : ProtocolFrame) : Nat :=
  ProtocolFrame.compute_lrc_bytes f.lrc_input_bytes

/-- Function `ProtocolFrame::validate_lrc` of src/main.rs. -/
def ProtocolFrame.validate_lrc (f : ProtocolFrame) : Bool :=
  f.expected_lrc == f.lrc

/-- Classified decode errors of `parse_raw_data` (src/main.rs).  The
source returns `Err(String)`; each constructor stands for one exact
message: `tooShort` for "Data too short to be a valid frame",
`badStart` for "Invalid SOH", `badFrameStart` for "Invalid STX",
`badFrameEnd` for "Invalid ETX", `checksumMismatch` for
"LRC validation failed". -/
inductive FrameError where
  | tooShort
  | badStart
  | badFrameStart
  | badFrameEnd
  | checksumMismatch
deriving DecidableEq, Repr

/-- Outcome of one call to `parse_raw_data`.  `crash` models a Rust
panic (the function aborting instead of returning a `Result`). -/
inductive ParseOutcome where
  | ok (f : ProtocolFrame)
  | err (e : FrameError)
  | crash
deriving DecidableEq, Repr

/-- Function `parse_raw_data` of src/main.rs (lines 68-108).  The single
index accesses `data[0]`, `data[1]`, `data[2]`, `data[3]`,
`data[len-2]`, `data[len-1]` are all in bounds once `len >= 5`, so
`List.getD _ _ 0` coincides with Rust indexing there.  The slice
`data[4..data.len()-2]` however panics in Rust whenever the range start
exceeds the range end, i.e. exactly when `data.len() = 5` (the guard
only requires `len >= 5`); that abort is modelled by the `crash`
outcome.  For `len >= 6` the slice equals `(data.drop 4).take (len-6)`. -/
def parse_raw_data (data : List Nat) : ParseOutcome :=
  if data.length < 5 then .err .tooShort
  else if data.getD 0 0 ≠ SOH then .err .badStart
  else if data.getD 2 0 ≠ STX then .err .badFrameStart
  else if data.getD (data.length - 2) 0 ≠ ETX then .err .badFrameEnd
  else if data.length < 6 then .crash
  else
    let frame : ProtocolFrame :=
      { soh := data.getD 0 0
        address := data.getD 1 0
        stx := data.getD 2 0
        ctrl := data.getD 3 0
        message := (data.drop 4).take (data.length - 6)
        etx := data.getD (data.length - 2) 0
        lrc := data.getD (data.length - 1) 0 }
    if frame.validate_lrc then .ok frame else .err .checksumMismatch

/-- Wire layout of a frame as described by the protocol:
`START ADDRESS FRAME_START CONTROL PAYLOAD... FRAME_END CHECKSUM`,
with an arbitrary trailing checksum byte. -/
def frameBytes (address ctrl : Nat) (payload : List Nat) (lrc : Nat) : List Nat :=
  SOH :: address :: STX :: ctrl :: (payload ++ [ETX, lrc])

/-- Frame value that `parse_raw_data` reconstructs from `frameBytes`. -/
def frameOf (address ctrl : Nat) (payload : List Nat) (lrc : Nat) : ProtocolFrame :=
  { soh := SOH, address := address, stx := STX, ctrl := ctrl
    message := payload, etx := ETX, lrc := lrc }

/-- Byte sequence built the canonical way: the checksum is computed over
`ADDRESS ++ FRAME_START ++ CONTROL ++ PAYLOAD ++ FRAME_END` and embedded
as the trailing byte (spec 6, "Wire framing"). -/
def buildFrameBytes (address ctrl : Nat) (payload : List Nat) : List Nat :=
  frameBytes address ctrl payload
    (ProtocolFrame.compute_lrc_bytes ([address, STX, ctrl] ++ payload ++ [ETX]))

/-- Struct `Message18` of src/main.rs (Game Time and Time-outs); the
reserved bytes 11, 12 and 14 are stored as `Option` and always `none`,
exactly as in the source. -/
structure Message18 where
  id_1 : Nat
  id_2 : Nat
  status_word : Nat
  sports_id : Nat
  minutes_1 : Nat
  minutes_2 : Nat
  seconds_1 : Nat
  seconds_2 : Nat
  home_time_outs : Nat
  guest_time_outs : Nat
  byte_11 : Option Nat
  byte_12 : Option Nat
  period : Nat
  byte_14 : Option Nat
deriving DecidableEq, Repr

/-- Struct `Message30` of src/main.rs (Scores). -/
structure Message30 where
  id_1 : Nat
  id_2 : Nat
  sports_id : Nat
  home_score_1 : Nat
  home_score_2 : Nat
  home_score_3 : Nat
  guest_score_1 : Nat
  guest_score_2 : Nat
  guest_score_3 : Nat
deriving DecidableEq, Repr

/-- Struct `Message31` of src/main.rs (Fouls and Player Info). -/
structure Message31 where
  id_1 : Nat
  id_2 : Nat
  sports_id : Nat
  byte_4 : Option Nat
  home_fouls : Nat
  byte_6 : Option Nat
  guest_fouls : Nat
  number_player_on_line_1 : Nat
  number_player_on_line_2 : Nat
  number_of_faults_of_player : Nat
  team_of_player : Nat
deriving DecidableEq, Repr

/-- Struct `Message50` of src/main.rs (Shot Clock). -/
structure Message50 where
  id_1 : Nat
  id_2 : Nat
  status_word : Nat
  seconds_1 : Nat
  seconds_2 : Nat
deriving DecidableEq, Repr

/-- Struct `StatusWord18` of src/main.rs. -/
structure StatusWord18 where
  clock_type : Bool
  game_clock_off : Bool
  horn_on : Bool
  possession_in_tenth : Bool
  new_match : Bool
  b7 : Bool
deriving DecidableEq, Repr

/-- Function `StatusWord18::from_byte` of src/main.rs. -/
def StatusWord18.from_byte (byte : Nat) : StatusWord18 :=
  { clock_type := (byte &&& (1 <<< 0)) != 0
    game_clock_off := (byte &&& (1 <<< 1)) != 0
    horn_on := (byte &&& (1 <<< 2)) != 0
    possession_in_tenth := (byte &&& (1 <<< 4)) != 0
    new_match := (byte &&& (1 <<< 6)) != 0
    b7 := (byte &&& (1 <<< 7)) != 0 }

/-- Struct `StatusWord50` of src/main.rs. -/
structure StatusWord50 where
  b0 : Option Bool
  status_possession_timer : Bool
  status_possession_horn : Bool
  status_of_shot_clock : Bool
  possession_timer_in_tenths : Bool
  b5 : Option Bool
  b6 : Option Bool
  b7 : Bool
deriving DecidableEq, Repr

/-- Function `StatusWord50::from_byte` of src/main.rs. -/
def StatusWord50.from_byte (byte : Nat) : StatusWord50 :=
  { b0 := none
    status_possession_timer := (byte &&& (1 <<< 1)) != 0
    status_possession_horn := (byte &&& (1 <<< 2)) != 0
    status_of_shot_clock := (byte &&& (1 <<< 3)) != 0
    possession_timer_in_tenths := (byte &&& (1 <<< 4)) != 0
    b5 := none
    b6 := none
    b7 := (byte &&& (1 <<< 7)) != 0 }

/-- Observable result of `parse_valid_frame` (src/main.rs lines
213-411): which branch of the message-type dispatch ran and, for a
recognized type of sufficient length, the struct it built.  The
source only logs; the constructors summarize each branch. -/
inductive DecodedMessage where
  | typeTooShort
  | msg18 (m : Message18)
  | msg18TooShort
  | msg30 (m : Message30)
  | msg30TooShort
  | msg31 (m : Message31)
  | msg31TooShort
  | msg50 (m : Message50)
  | msg50TooShort
  | unknown (b0 b1 : Nat)
deriving DecidableEq, Repr

/-- Function `parse_valid_frame` of src/main.rs: dispatch on the first
two payload bytes, per-type minimum-length checks, fixed-offset field
extraction.  All indices are within the checked lengths, so
`List.getD _ _ 0` coincides with Rust indexing. -/
def parse_valid_frame (frame : ProtocolFrame) : DecodedMessage :=
  if frame.message.length < 2 then .typeTooShort
  else
    match frame.message.getD 0 0, frame.message.getD 1 0 with
    | 0x31, 0x38 =>
      if frame.message.length < 14 then .msg18TooShort
      else
        .msg18
          { id_1 := frame.message.getD 0 0
            id_2 := frame.message.getD 1 0
            status_word := frame.message.getD 2 0
            sports_id := frame.message.getD 3 0
            minutes_1 := frame.message.getD 4 0
            minutes_2 := frame.message.getD 5 0
            seconds_1 := frame.message.getD 6 0
            seconds_2 := frame.message.getD 7 0
            home_time_outs := frame.message.getD 8 0
            guest_time_outs := frame.message.getD 9 0
            byte_11 := none
            byte_12 := none
            period := frame.message.getD 12 0
            byte_14 := none }
    | 0x33, 0x30 =>
      if frame.message.length < 9 then .msg30TooShort
      else
        .msg30
          { id_1 := frame.message.getD 0 0
            id_2 := frame.message.getD 1 0
            sports_id := frame.message.getD 2 0
            home_score_1 := frame.message.getD 3 0
            home_score_2 := frame.message.getD 4 0
            home_score_3 := frame.message.getD 5 0
            guest_score_1 := frame.message.getD 6 0
            guest_score_2 := frame.message.getD 7 0
            guest_score_3 := frame.message.getD 8 0 }
    | 0x33, 0x31 =>
      if frame.message.length < 11 then .msg31TooShort
      else
        .msg31
          { id_1 := frame.message.getD 0 0
            id_2 := frame.message.getD 1 0
            sports_id := frame.message.getD 2 0
            byte_4 := none
            home_fouls := frame.message.getD 4 0
            byte_6 := none
            guest_fouls := frame.message.getD 6 0
            number_player_on_line_1 := frame.message.getD 7 0
            number_player_on_line_2 := frame.message.getD 8 0
            number_of_faults_of_player := frame.message.getD 9 0
            team_of_player := frame.message.getD 10 0 }
    | 0x35, 0x30 =>
      if frame.message.length < 5 then .msg50TooShort
      else
        .msg50
          { id_1 := frame.message.getD 0 0
            id_2 := frame.message.getD 1 0
            status_word := frame.message.getD 2 0
            seconds_1 := frame.message.getD 3 0
            seconds_2 := frame.message.getD 4 0 }
    | t1, t2 => .unknown t1 t2

/-- Rendering of one byte the way Rust `b as char` does in the source's
log formatting: the character with that Unicode scalar value. -/
def charStr (b : Nat) : String := String.singleton (Char.ofNat b)

/-- Display string logged by the message type 18 branch (src/main.rs
lines 268-281): tenths mode renders minutes digits, a dot and the
seconds-ones digit; otherwise minutes digits, a colon and both seconds
digits. -/
def Message18.time_display (m : Message18) : String :=
  let sw := StatusWord18.from_byte m.status_word
  if sw.possession_in_tenth then
    charStr m.minutes_1 ++ charStr m.minutes_2 ++ "." ++ charStr m.seconds_2
  else
    charStr m.minutes_1 ++ charStr m.minutes_2 ++ ":" ++ charStr m.seconds_1 ++ charStr m.seconds_2

/-- Display string logged by the message type 50 branch (src/main.rs
lines 389-399). -/
def Message50.display (m : Message50) : String :=
  let sw := StatusWord50.from_byte m.status_word
  if sw.possession_timer_in_tenths then
    charStr m.seconds_1 ++ "." ++ charStr m.seconds_2
  else
    charStr m.seconds_1 ++ charStr m.seconds_2

/-- Modelled from the spec: the numeric decoding of a digit character.
The module that turns digit characters into numbers (the
`basketball_parser` aggregate referenced by src/web_server.rs) is not
under src/; spec 4.2 defines the field convention as "parsing each byte
as value - '0' and combining tens/ones/hundreds positions decimally". -/
def digitValue (b : Nat) : Nat := b - 0x30

/-- Modelled from the spec: decimal combination of three digit
characters by hundreds/tens/ones position. -/
def scoreNumber (d1 d2 d3 : Nat) : Nat :=
  100 * digitValue d1 + 10 * digitValue d2 + digitValue d3

/-- Score event of the spec's data model (spec 3, Event). -/
structure ScoreEvent where
  home : Nat
  guest : Nat
deriving DecidableEq, Repr

/-- Modelled from the spec: the Score event produced from a decoded
type 30 message. -/
def Message30.scoreEvent (m : Message30) : ScoreEvent :=
  { home := scoreNumber m.home_score_1 m.home_score_2 m.home_score_3
    guest := scoreNumber m.guest_score_1 m.guest_score_2 m.guest_score_3 }

/-- Abstract actions performed by the query-server request handlers of
src/web_server.rs, in program order. -/
inductive ApiAction where
  | lockAcquire
  | readState
  | serializeJson
  | socketWrite
  | socketFlush
  | lockRelease
  | fileRead
deriving DecidableEq, Repr

/-- Action trace of `handle_api_request` (src/web_server.rs lines
69-105) in source order: `state.lock()` binds the `MutexGuard` to
`current_state` (line 73); the protocol fields are read while the JSON
body is formatted (lines 75-94); the HTTP response is formatted and
written with `write_all` (line 102) and `flush` (line 103); the guard
is dropped when the function returns — Rust drops it at end of scope,
which is after both socket calls. -/
def handle_api_request_trace : List ApiAction :=
  [.lockAcquire, .readState, .serializeJson, .socketWrite, .socketFlush, .lockRelease]

/-- Action trace of `handle_overlay_request` (src/web_server.rs lines
107-130): it reads the overlay file and writes the response without
ever touching the shared-state lock. -/
def handle_overlay_request_trace : List ApiAction :=
  [.fileRead, .socketWrite, .socketFlush]

/-- Some occurrence of the target action happens while the lock is held
(lock depth tracked through the trace). -/
def occursUnderLock (target : ApiAction) : Nat → List ApiAction → Bool
  | _, [] => false
  | depth, ApiAction.lockAcquire :: rest => occursUnderLock target (depth + 1) rest
  | depth, ApiAction.lockRelease :: rest => occursUnderLock target (depth - 1) rest
  | depth, a :: rest =>
      (a == target && decide (0 < depth)) || occursUnderLock target depth rest

/-- Every occurrence of the target action happens while the lock is
held. -/
def allUnderLock (target : ApiAction) : Nat → List ApiAction → Bool
  | _, [] => true
  | depth, ApiAction.lockAcquire :: rest => allUnderLock target (depth + 1) rest
  | depth, ApiAction.lockRelease :: rest => allUnderLock target (depth - 1) rest
  | depth, a :: rest =>
      (a != target || decide (0 < depth)) && allUnderLock target depth rest

/-- Route taken by `handle_http_request` (src/web_server.rs lines
48-67). -/
inductive Route where
  | apiState
  | overlay
deriving DecidableEq, Repr

/-- Rust `str::starts_with` on the underlying character sequence. -/
def strStartsWith (s pat : String) : Bool := pat.data.isPrefixOf s.data

/-- First request line as computed in `handle_http_request`
(src/web_server.rs lines 55-56): Rust `lines().next().unwrap_or("")`
yields the text before the first newline, with one trailing carriage
return stripped; an empty request yields the empty line. -/
def requestLine (request : String) : String :=
  let raw := request.data.takeWhile (fun ch => ch ≠ '\n')
  String.mk (if raw.getLast? = some '\r' then raw.dropLast else raw)

/-- Routing decision of `handle_http_request` (src/web_server.rs line
58): prefix match of the first request line against "GET /api/state". -/
def handle_http_request_route (request : String) : Route :=
  if strStartsWith (requestLine request) "GET /api/state" then .apiState else .overlay

/-- Response assembled by `handle_overlay_request` (src/web_server.rs
lines 121-125): status line, HTML content type, content length, body. -/
def overlay_response (html : String) : String :=
  "HTTP/1.1 200 OK\r\nContent-Type: text/html; charset=utf-8\r\nContent-Length: " ++
    toString html.utf8ByteSize ++ "\r\n\r\n" ++ html

theorem frameBytes_shape (a c : Nat) (p : List Nat) (l : Nat) :
    frameBytes a c p l = [SOH, a, STX, c] ++ (p ++ [ETX, l]) := rfl

theorem frameBytes_length (a c : Nat) (p : List Nat) (l : Nat) :
    (frameBytes a c p l).length = p.length + 6 := by
  rw [frameBytes_shape]
  simp

theorem frameBytes_getD_endMinus2 (a c : Nat) (p : List Nat) (l : Nat) :
    (frameBytes a c p l).getD (p.length + 4) 0 = ETX := by
  rw [frameBytes_shape, List.getD_append_right _ _ _ _ (by simp)]
  have h4 : ([SOH, a, STX, c] : List Nat).length = 4 := rfl
  rw [h4, Nat.add_sub_cancel, List.getD_append_right _ _ _ _ (Nat.le_refl _),
    Nat.sub_self]
  rfl

theorem frameBytes_getD_endMinus1 (a c : Nat) (p : List Nat) (l : Nat) :
    (frameBytes a c p l).getD (p.length + 5) 0 = l := by
  rw [frameBytes_shape, List.getD_append_right _ _ _ _ (by simp)]
  have h4 : ([SOH, a, STX, c] : List Nat).length = 4 := rfl
  have h5 : p.length + 5 - 4 = p.length + 1 := by omega
  rw [h4, h5, List.getD_append_right _ _ _ _ (by omega)]
  have h1 : p.length + 1 - p.length = 1 := by omega
  rw [h1]
  rfl

theorem frameBytes_message (a c : Nat) (p : List Nat) (l : Nat) :
    ((frameBytes a c p l).drop 4).take ((frameBytes a c p l).length - 6) = p := by
  rw [frameBytes_length, frameBytes_shape]
  have hd : (([SOH, a, STX, c] ++ (p ++ [ETX, l])).drop 4) = p ++ [ETX, l] :=
    List.drop_left' rfl
  rw [hd]
  have ht : p.length + 6 - 6 = p.length := by omega
  rw [ht]
  exact List.take_left' rfl

/-- Evaluation of the decoder on any byte sequence of the exact wire
shape with payload-carrying length (at least 6 bytes total): the three
sentinel checks pass and the outcome is decided by the checksum check
alone. -/
theorem parse_frameBytes (a c : Nat) (p : List Nat) (l : Nat) :
    parse_raw_data (frameBytes a c p l) =
      if (frameOf a c p l).validate_lrc
      then ParseOutcome.ok (frameOf a c p l)
      else ParseOutcome.err FrameError.checksumMismatch := by
  have hlen := frameBytes_length a c p l
  have h0 : (frameBytes a c p l).getD 0 0 = SOH := rfl
  have h1 : (frameBytes a c p l).getD 1 0 = a := rfl
  have h2 : (frameBytes a c p l).getD 2 0 = STX := rfl
  have h3 : (frameBytes a c p l).getD 3 0 = c := rfl
  have hlt5 : ¬ (frameBytes a c p l).length < 5 := by omega
  have hlt6 : ¬ (frameBytes a c p l).length < 6 := by omega
  have hm2 : (frameBytes a c p l).length - 2 = p.length + 4 := by omega
  have hm1 : (frameBytes a c p l).length - 1 = p.length + 5 := by omega
  unfold parse_raw_data
  rw [if_neg hlt5, h0, if_neg (by simp), h2, if_neg (by simp), hm2,
    frameBytes_getD_endMinus2, if_neg (by simp), if_neg hlt6]
  rw [h1, h3, hm1, frameBytes_getD_endMinus1, frameBytes_message]
  rfl

theorem cons4_append_getD_len4 (w x y z u v : Nat) (p : List Nat) :
    (w :: x :: y :: z :: (p ++ [u, v])).getD (p.length + 4) 0 = u := by
  have hshape : (w :: x :: y :: z :: (p ++ [u, v])) = [w, x, y, z] ++ (p ++ [u, v]) := rfl
  rw [hshape, List.getD_append_right _ _ _ _ (by simp)]
  have h4 : ([w, x, y, z] : List Nat).length = 4 := rfl
  rw [h4, Nat.add_sub_cancel, List.getD_append_right _ _ _ _ (Nat.le_refl _), Nat.sub_self]
  rfl

/-- Claim C1 (code bug in src/main.rs): a 5-byte input that passes the
three sentinel checks reaches the slice `data[4..data.len()-2]`, which
is `data[4..3]` and panics in Rust — the function aborts instead of
returning a classified result.  Here evaluated at the concrete failing
input `[0x01, 0x41, 0x02, 0x03, 0x61]`. -/
theorem parse_raw_data_crashes_on_min_length :
    parse_raw_data [0x01, 0x41, 0x02, 0x03, 0x61] = ParseOutcome.crash := by decide

/-- Claim C5: building the full frame byte sequence with the canonically
computed checksum embedded and then decoding it succeeds, and the
decoded Frame's stored checksum equals the checksum recomputed from its
fields. -/
theorem build_then_decode_roundtrip (address ctrl : Nat) (payload : List Nat) :
    parse_raw_data (buildFrameBytes address ctrl payload) =
      ParseOutcome.ok (frameOf address ctrl payload
        (ProtocolFrame.compute_lrc_bytes ([address, STX, ctrl] ++ payload ++ [ETX]))) ∧
    (frameOf address ctrl payload
        (ProtocolFrame.compute_lrc_bytes ([address, STX, ctrl] ++ payload ++ [ETX]))).expected_lrc =
      (frameOf address ctrl payload
        (ProtocolFrame.compute_lrc_bytes ([address, STX, ctrl] ++ payload ++ [ETX]))).lrc := by
  constructor
  · rw [buildFrameBytes, parse_frameBytes, if_pos]
    simp [ProtocolFrame.validate_lrc, ProtocolFrame.expected_lrc,
      ProtocolFrame.lrc_input_bytes, frameOf]
  · rfl

/-- Claim C2, counterexample: in the validly-checksummed frame
`[01, 20, 02, 20, 30, 03, 31]` (hex) changing the single payload byte
`0x30` to the different value `0xB0` flips only bit 7, which the
`&&& 0x7F` mask erases, so the mutated bytes still decode successfully —
not to `ChecksumMismatch` as the claim requires. -/
theorem mutation_not_always_checksum_mismatch :
    parse_raw_data [0x01, 0x20, 0x02, 0x20, 0x30, 0x03, 0x31] =
      ParseOutcome.ok (frameOf 0x20 0x20 [0x30] 0x31) ∧
    (0xB0 : Nat) ≠ 0x30 ∧
    parse_raw_data [0x01, 0x20, 0x02, 0x20, 0xB0, 0x03, 0x31] =
      ParseOutcome.ok (frameOf 0x20 0x20 [0xB0] 0x31) := by decide

theorem parse_frameBytes_mismatch_iff (a c : Nat) (p : List Nat) (l : Nat) :
    (parse_raw_data (frameBytes a c p l) = ParseOutcome.err FrameError.checksumMismatch ↔
      (frameOf a c p l).expected_lrc ≠ l) ∧
    ((frameOf a c p l).expected_lrc = l →
      parse_raw_data (frameBytes a c p l) = ParseOutcome.ok (frameOf a c p l)) := by
  rw [parse_frameBytes]
  have hval : (frameOf a c p l).validate_lrc = ((frameOf a c p l).expected_lrc == l) := rfl
  by_cases h : (frameOf a c p l).expected_lrc = l
  · rw [hval, if_pos (by simp [h])]
    constructor
    · constructor
      · intro hcontra
        exact absurd hcontra (by simp)
      · intro hne
        exact absurd h hne
    · intro
      rfl
  · rw [hval, if_neg (by simp [h])]
    constructor
    · constructor
      · intro
        exact h
      · intro
        rfl
    · intro heq
      exact absurd heq h

/-- Claim C2 (amended): for a frame whose bytes carry a valid checksum,
changing exactly one byte of the address, the control byte, or the
payload to a different value (without recomputing the checksum) and
decoding yields `ChecksumMismatch` exactly when the checksum recomputed
over the mutated bytes differs from the stored checksum; when the
mutation preserves the computed checksum (for instance it flips only
bit 7 of the byte, which the `&&& 0x7F` mask erases) the decode
succeeds instead. -/
theorem single_byte_mutation_checksum (address ctrl : Nat) (payload : List Nat) (lrc : Nat)
    (_hvalid : (frameOf address ctrl payload lrc).validate_lrc = true) :
    (∀ a', a' ≠ address →
        (parse_raw_data (frameBytes a' ctrl payload lrc) =
            ParseOutcome.err FrameError.checksumMismatch ↔
          (frameOf a' ctrl payload lrc).expected_lrc ≠ lrc) ∧
        ((frameOf a' ctrl payload lrc).expected_lrc = lrc →
          parse_raw_data (frameBytes a' ctrl payload lrc) =
            ParseOutcome.ok (frameOf a' ctrl payload lrc))) ∧
    (∀ c', c' ≠ ctrl →
        (parse_raw_data (frameBytes address c' payload lrc) =
            ParseOutcome.err FrameError.checksumMismatch ↔
          (frameOf address c' payload lrc).expected_lrc ≠ lrc) ∧
        ((frameOf address c' payload lrc).expected_lrc = lrc →
          parse_raw_data (frameBytes address c' payload lrc) =
            ParseOutcome.ok (frameOf address c' payload lrc))) ∧
    (∀ i b', i < payload.length → b' ≠ payload.getD i 0 →
        (parse_raw_data (frameBytes address ctrl (payload.set i b') lrc) =
            ParseOutcome.err FrameError.checksumMismatch ↔
          (frameOf address ctrl (payload.set i b') lrc).expected_lrc ≠ lrc) ∧
        ((frameOf address ctrl (payload.set i b') lrc).expected_lrc = lrc →
          parse_raw_data (frameBytes address ctrl (payload.set i b') lrc) =
            ParseOutcome.ok (frameOf address ctrl (payload.set i b') lrc))) := by
  refine ⟨fun a' _ => parse_frameBytes_mismatch_iff a' ctrl payload lrc,
    fun c' _ => parse_frameBytes_mismatch_iff address c' payload lrc,
    fun i b' _ _ => parse_frameBytes_mismatch_iff address ctrl (payload.set i b') lrc⟩

theorem single_byte_mutation_checksum_witness :
    parse_raw_data (frameBytes 0x20 0x20 ([0x30].set 0 0x31) 0x31) =
      ParseOutcome.err FrameError.checksumMismatch :=
  ((single_byte_mutation_checksum 0x20 0x20 [0x30] 0x31 (by decide)).2.2 0 0x31
    (by decide) (by decide)).1.mpr (by decide)

/-- Claim C6: inputs shorter than 5 bytes always decode to `TooShort`;
and in an otherwise-valid frame a wrong first byte, third byte, or
second-to-last byte yields `BadStart`, `BadFrameStart`, `BadFrameEnd`
respectively — the sentinel checks short-circuit in that order before
the checksum is ever examined, so `ChecksumMismatch` never results. -/
theorem sentinel_checks_short_circuit :
    (∀ data : List Nat, data.length < 5 →
        parse_raw_data data = ParseOutcome.err FrameError.tooShort) ∧
    (∀ a c p l b, (frameOf a c p l).validate_lrc = true → b ≠ SOH →
        parse_raw_data (b :: a :: STX :: c :: (p ++ [ETX, l])) =
          ParseOutcome.err FrameError.badStart) ∧
    (∀ a c p l b, (frameOf a c p l).validate_lrc = true → b ≠ STX →
        parse_raw_data (SOH :: a :: b :: c :: (p ++ [ETX, l])) =
          ParseOutcome.err FrameError.badFrameStart) ∧
    (∀ a c p l b, (frameOf a c p l).validate_lrc = true → b ≠ ETX →
        parse_raw_data (SOH :: a :: STX :: c :: (p ++ [b, l])) =
          ParseOutcome.err FrameError.badFrameEnd) := by
  refine ⟨?_, ?_, ?_, ?_⟩
  · intro data h
    unfold parse_raw_data
    rw [if_pos h]
  · intro a c p l b _ hb
    have hlen : (b :: a :: STX :: c :: (p ++ [ETX, l])).length = p.length + 6 := by simp
    have hg0 : (b :: a :: STX :: c :: (p ++ [ETX, l])).getD 0 0 = b := rfl
    unfold parse_raw_data
    rw [if_neg (by rw [hlen]; omega), hg0, if_pos hb]
  · intro a c p l b _ hb
    have hlen : (SOH :: a :: b :: c :: (p ++ [ETX, l])).length = p.length + 6 := by simp
    have hg0 : (SOH :: a :: b :: c :: (p ++ [ETX, l])).getD 0 0 = SOH := rfl
    have hg2 : (SOH :: a :: b :: c :: (p ++ [ETX, l])).getD 2 0 = b := rfl
    unfold parse_raw_data
    rw [if_neg (by rw [hlen]; omega), hg0,
      if_neg (show ¬ ((SOH : Nat) ≠ SOH) from fun hc => hc rfl), hg2, if_pos hb]
  · intro a c p l b _ hb
    have hlen : (SOH :: a :: STX :: c :: (p ++ [b, l])).length = p.length + 6 := by simp
    have hg0 : (SOH :: a :: STX :: c :: (p ++ [b, l])).getD 0 0 = SOH := rfl
    have hg2 : (SOH :: a :: STX :: c :: (p ++ [b, l])).getD 2 0 = STX := rfl
    have hm2 : (SOH :: a :: STX :: c :: (p ++ [b, l])).length - 2 = p.length + 4 := by
      rw [hlen]
      omega
    unfold parse_raw_data
    rw [if_neg (by rw [hlen]; omega), hg0,
      if_neg (show ¬ ((SOH : Nat) ≠ SOH) from fun hc => hc rfl), hg2,
      if_neg (show ¬ ((STX : Nat) ≠ STX) from fun hc => hc rfl), hm2, cons4_append_getD_len4,
      if_pos hb]

theorem sentinel_checks_short_circuit_witness :
    parse_raw_data [0x01, 0x02] = ParseOutcome.err FrameError.tooShort ∧
    parse_raw_data [0x09, 0x20, 0x02, 0x20, 0x30, 0x03, 0x31] =
      ParseOutcome.err FrameError.badStart ∧
    parse_raw_data [0x01, 0x20, 0x09, 0x20, 0x30, 0x03, 0x31] =
      ParseOutcome.err FrameError.badFrameStart ∧
    parse_raw_data [0x01, 0x20, 0x02, 0x20, 0x30, 0x09, 0x31] =
      ParseOutcome.err FrameError.badFrameEnd :=
  ⟨sentinel_checks_short_circuit.1 [0x01, 0x02] (by decide),
    sentinel_checks_short_circuit.2.1 0x20 0x20 [0x30] 0x31 0x09 (by decide) (by decide),
    sentinel_checks_short_circuit.2.2.1 0x20 0x20 [0x30] 0x31 0x09 (by decide) (by decide),
    sentinel_checks_short_circuit.2.2.2 0x20 0x20 [0x30] 0x31 0x09 (by decide) (by decide)⟩

/-- Claim C9: every successfully decoded frame satisfies the structural
invariant — the three sentinel fields hold the sentinel values, the
payload has length `len(b) - 6`, the stored checksum is the last input
byte, and `validate_lrc` holds. -/
theorem parse_ok_invariant (data : List Nat) (f : ProtocolFrame)
    (h : parse_raw_data data = ParseOutcome.ok f) :
    f.soh = SOH ∧ f.stx = STX ∧ f.etx = ETX ∧
    f.message.length = data.length - 6 ∧
    f.lrc = data.getD (data.length - 1) 0 ∧
    f.validate_lrc = true := by
  unfold parse_raw_data at h
  by_cases h5 : data.length < 5
  · rw [if_pos h5] at h
    exact absurd h (by simp)
  rw [if_neg h5] at h
  by_cases h0 : data.getD 0 0 ≠ SOH
  · rw [if_pos h0] at h
    exact absurd h (by simp)
  rw [if_neg h0] at h
  by_cases h2 : data.getD 2 0 ≠ STX
  · rw [if_pos h2] at h
    exact absurd h (by simp)
  rw [if_neg h2] at h
  by_cases hE : data.getD (data.length - 2) 0 ≠ ETX
  · rw [if_pos hE] at h
    exact absurd h (by simp)
  rw [if_neg hE] at h
  by_cases h6 : data.length < 6
  · rw [if_pos h6] at h
    exact absurd h (by simp)
  rw [if_neg h6] at h
  rw [not_not] at h0 h2 hE
  set fr : ProtocolFrame :=
    ⟨data.getD 0 0, data.getD 1 0, data.getD 2 0, data.getD 3 0,
      (data.drop 4).take (data.length - 6), data.getD (data.length - 2) 0,
      data.getD (data.length - 1) 0⟩ with hfr
  have h' : (if fr.validate_lrc then ParseOutcome.ok fr
      else ParseOutcome.err FrameError.checksumMismatch) = ParseOutcome.ok f := h
  by_cases hv : fr.validate_lrc
  · rw [if_pos hv] at h'
    have hf : fr = f := by
      injection h'
    subst hf
    refine ⟨h0, h2, hE, ?_, rfl, hv⟩
    simp only [hfr]
    simp [List.length_take, List.length_drop]
    omega
  · rw [if_neg hv] at h'
    exact absurd h' (by simp)

theorem parse_ok_invariant_witness :
    (frameOf 0x20 0x20 [0x30] 0x31).soh = SOH ∧
    (frameOf 0x20 0x20 [0x30] 0x31).stx = STX ∧
    (frameOf 0x20 0x20 [0x30] 0x31).etx = ETX ∧
    (frameOf 0x20 0x20 [0x30] 0x31).message.length =
      ([0x01, 0x20, 0x02, 0x20, 0x30, 0x03, 0x31] : List Nat).length - 6 ∧
    (frameOf 0x20 0x20 [0x30] 0x31).lrc =
      ([0x01, 0x20, 0x02, 0x20, 0x30, 0x03, 0x31] : List Nat).getD
        (([0x01, 0x20, 0x02, 0x20, 0x30, 0x03, 0x31] : List Nat).length - 1) 0 ∧
    (frameOf 0x20 0x20 [0x30] 0x31).validate_lrc = true :=
  parse_ok_invariant [0x01, 0x20, 0x02, 0x20, 0x30, 0x03, 0x31]
    (frameOf 0x20 0x20 [0x30] 0x31) (by decide)

/-- Claim C7: for every byte sequence the canonical checksum function
returns a value in the closed interval 32..127. -/
theorem compute_lrc_bytes_mem_Icc (b : List Nat) :
    32 ≤ ProtocolFrame.compute_lrc_bytes b ∧ ProtocolFrame.compute_lrc_bytes b ≤ 127 := by
  unfold ProtocolFrame.compute_lrc_bytes
  set x := b.foldl (fun acc b => acc ^^^ b) 0 with hx
  have hmask : x &&& 0x7F < 128 := by
    have h := Nat.and_lt_two_pow x (show (0x7F : Nat) < 2 ^ 7 by norm_num)
    norm_num at h
    exact h
  by_cases h : x &&& 0x7F < 32
  · rw [if_pos h]
    omega
  · rw [if_neg h]
    omega

/-- Claim C4: a score-type payload with home digit characters
'1','2','0' and guest digit characters '0','9','5' is decoded by the
message type 30 branch into the digit struct whose characters, combined
decimally per the spec's field convention, give the Score event
home = 120 and guest = 95. -/
theorem score_digits_decode :
    parse_valid_frame (frameOf 0 0 [0x33, 0x30, 0x35, 0x31, 0x32, 0x30, 0x30, 0x39, 0x35] 0) =
      DecodedMessage.msg30 ⟨0x33, 0x30, 0x35, 0x31, 0x32, 0x30, 0x30, 0x39, 0x35⟩ ∧
    Message30.scoreEvent ⟨0x33, 0x30, 0x35, 0x31, 0x32, 0x30, 0x30, 0x39, 0x35⟩ =
      ⟨120, 95⟩ := by
  constructor
  · rfl
  · decide

/-- Claim C8: a full frame built with correct sentinels and a valid
checksum for a shot-clock payload with digits '1','4' renders "1.4"
when the status word's tenths bit (bit 4) is set and "14" when it is
clear; and for the time/timeouts message, tenths mode renders
minutesTens minutesOnes '.' secondsOnes while non-tenths mode renders
minutesTens minutesOnes ':' secondsTens secondsOnes. -/
theorem time_display_tenths_mode :
    (parse_raw_data (buildFrameBytes 0x20 0x20 [0x35, 0x30, 0x10, 0x31, 0x34]) =
        ParseOutcome.ok (frameOf 0x20 0x20 [0x35, 0x30, 0x10, 0x31, 0x34] 0x31) ∧
      parse_valid_frame (frameOf 0x20 0x20 [0x35, 0x30, 0x10, 0x31, 0x34] 0x31) =
        DecodedMessage.msg50 ⟨0x35, 0x30, 0x10, 0x31, 0x34⟩ ∧
      Message50.display ⟨0x35, 0x30, 0x10, 0x31, 0x34⟩ = "1.4") ∧
    (parse_raw_data (buildFrameBytes 0x20 0x20 [0x35, 0x30, 0x00, 0x31, 0x34]) =
        ParseOutcome.ok (frameOf 0x20 0x20 [0x35, 0x30, 0x00, 0x31, 0x34] 0x21) ∧
      parse_valid_frame (frameOf 0x20 0x20 [0x35, 0x30, 0x00, 0x31, 0x34] 0x21) =
        DecodedMessage.msg50 ⟨0x35, 0x30, 0x00, 0x31, 0x34⟩ ∧
      Message50.display ⟨0x35, 0x30, 0x00, 0x31, 0x34⟩ = "14") ∧
    (∀ sw sp m1 m2 s1 s2 hto gto b11 b12 per b14 a c l : Nat,
      parse_valid_frame
          (frameOf a c [0x31, 0x38, sw, sp, m1, m2, s1, s2, hto, gto, b11, b12, per, b14] l) =
        DecodedMessage.msg18
          ⟨0x31, 0x38, sw, sp, m1, m2, s1, s2, hto, gto, none, none, per, none⟩ ∧
      (sw &&& (1 <<< 4) ≠ 0 →
        Message18.time_display
            ⟨0x31, 0x38, sw, sp, m1, m2, s1, s2, hto, gto, none, none, per, none⟩ =
          charStr m1 ++ charStr m2 ++ "." ++ charStr s2) ∧
      (sw &&& (1 <<< 4) = 0 →
        Message18.time_display
            ⟨0x31, 0x38, sw, sp, m1, m2, s1, s2, hto, gto, none, none, per, none⟩ =
          charStr m1 ++ charStr m2 ++ ":" ++ charStr s1 ++ charStr s2)) := by
  refine ⟨⟨by decide, by decide, by decide⟩, ⟨by decide, by decide, by decide⟩, ?_⟩
  intro sw sp m1 m2 s1 s2 hto gto b11 b12 per b14 a c l
  refine ⟨rfl, ?_, ?_⟩
  · intro h
    simp [Message18.time_display, StatusWord18.from_byte]
    intro hcontra
    exact absurd hcontra h
  · intro h
    simp [Message18.time_display, StatusWord18.from_byte]
    intro hcontra
    exact absurd h hcontra

theorem time_display_tenths_mode_witness :
    Message18.time_display
        ⟨0x31, 0x38, 0x10, 0x35, 0x30, 0x37, 0x32, 0x33, 0x31, 0x32, none, none, 0x31, none⟩ =
      charStr 0x30 ++ charStr 0x37 ++ "." ++ charStr 0x33 ∧
    Message18.time_display
        ⟨0x31, 0x38, 0x00, 0x35, 0x30, 0x37, 0x32, 0x33, 0x31, 0x32, none, none, 0x31, none⟩ =
      charStr 0x30 ++ charStr 0x37 ++ ":" ++ charStr 0x32 ++ charStr 0x33 :=
  ⟨(time_display_tenths_mode.2.2 0x10 0x35 0x30 0x37 0x32 0x33 0x31 0x32 0 0 0x31 0 0 0 0).2.1
      (by decide),
    (time_display_tenths_mode.2.2 0x00 0x35 0x30 0x37 0x32 0x33 0x31 0x32 0 0 0x31 0 0 0 0).2.2
      (by decide)⟩

/-- Claim C3, counterexample: in `handle_api_request` the lock guard is
dropped only at function exit, so the lock is still held during the
socket `write_all` and `flush` — it is not released before the HTTP
response is written, and it is held across socket I/O. -/
theorem api_lock_held_across_socket_io :
    occursUnderLock ApiAction.socketWrite 0 handle_api_request_trace = true ∧
    occursUnderLock ApiAction.socketFlush 0 handle_api_request_trace = true := by decide

/-- Claim C3 (amended): when the query server serves the state
endpoint, it acquires the shared game-state lock before reading, reads
the needed fields and serializes the JSON only under the lock, and
keeps holding the lock across the socket write and flush, releasing it
only when the handler returns; the overlay handler performs its file
and socket I/O without ever acquiring the lock. -/
theorem api_lock_discipline :
    allUnderLock ApiAction.readState 0 handle_api_request_trace = true ∧
    allUnderLock ApiAction.serializeJson 0 handle_api_request_trace = true ∧
    occursUnderLock ApiAction.socketWrite 0 handle_api_request_trace = true ∧
    occursUnderLock ApiAction.socketFlush 0 handle_api_request_trace = true ∧
    handle_api_request_trace.getLast? = some ApiAction.lockRelease ∧
    ApiAction.lockAcquire ∉ handle_overlay_request_trace ∧
    ApiAction.lockRelease ∉ handle_overlay_request_trace := by decide

/-- Claim C10: routing is decided solely by prefix-matching the first
request line against "GET /api/state" — any matching line (including
longer paths such as "GET /api/statefoo") is served by the JSON state
endpoint, every other request receives the overlay, and the overlay
response carries an HTTP 200 status line. -/
theorem routing_by_request_line :
    (∀ request : String, strStartsWith (requestLine request) "GET /api/state" = true →
        handle_http_request_route request = Route.apiState) ∧
    handle_http_request_route "GET /api/statefoo HTTP/1.1\r\nHost: h\r\n\r\n" = Route.apiState ∧
    (∀ request : String, strStartsWith (requestLine request) "GET /api/state" = false →
        handle_http_request_route request = Route.overlay) ∧
    (∀ html : String, strStartsWith (overlay_response html) "HTTP/1.1 200 OK" = true) := by
  refine ⟨?_, ?_, ?_, ?_⟩
  · intro request h
    simp [handle_http_request_route, h]
  · decide
  · intro request h
    simp [handle_http_request_route, h]
  · intro html
    unfold overlay_response strStartsWith
    simp only [List.isPrefixOf_iff_prefix, String.data_append, List.append_assoc]
    have h1 : ("HTTP/1.1 200 OK" : String).data <+:
        ("HTTP/1.1 200 OK\r\nContent-Type: text/html; charset=utf-8\r\nContent-Length: " :
          String).data := by decide
    exact h1.trans (List.prefix_append _ _)

theorem routing_by_request_line_witness :
    handle_http_request_route "GET /api/state HTTP/1.1\r\n\r\n" = Route.apiState ∧
    handle_http_request_route "POST /submit HTTP/1.1\r\n\r\n" = Route.overlay :=
  ⟨routing_by_request_line.1 "GET /api/state HTTP/1.1\r\n\r\n" (by decide),
    routing_by_request_line.2.2.1 "POST /submit HTTP/1.1\r\n\r\n" (by decide)⟩
